import Mathlib

/-!
Verification of the app-attest-middleware orchestration core against its
design document.  The Go source is shallowly embedded: each fallible
collaborator call becomes an `Except` value supplied as an oracle, stateful
request handling becomes explicit state passing, and each adapter/boundary
function is a Lean function mirroring the Go control flow statement by
statement.  Invocation of collaborators is made observable through explicit
call traces or counters so that "X is never called" properties are provable.
-/

/-! ## Request-ID provider (package requestid, request.go) -/

/-- Error outcome of `EnsureRequest`.  In Go the "generator not initialized"
error is a distinct sentinel value created by `fmt.Errorf`; a generator's own
failure is a different error value even if its message coincides, so the two
are separate constructors. -/
inductive EnsureErr where
  | notInitialized
  | genFailure (msg : String)
deriving Repr

/-- The `Generator` interface: `NextID() (string, error)`.  A pure model of
one call's outcome. -/
structure Generator where
  nextID : Except String String
deriving Repr

/-- A request body stream (`r.Body`): the bytes it would deliver, and
whether the underlying reader ends with a read error after those bytes
(instead of a clean EOF). -/
structure BodyStream where
  bytes : List Nat
  readErr : Bool
deriving DecidableEq, Repr

/-- Model of `*http.Request` as far as the verified code inspects it:
`Header.Get` returns `""` for an absent header, so headers are plain
strings with `""` meaning absent.  `ctx` models the value stored under
`requestIDKey` in the request context (`none` when absent); `body` is
`none` when `r.Body` is nil. -/
structure HttpRequest where
  xRequestID : String
  referer : String
  ctx : Option String
  body : Option BodyStream
deriving Repr

/-- `FromContext(ctx)`: the value under `requestIDKey` type-asserted to
string, or `""` when absent. -/
def FromContext (ctx : Option String) : String :=
  ctx.getD ""

/-- Output of `EnsureRequest` together with the number of times the
generator's `NextID` was invoked during the call. -/
structure EnsureOut where
  result : Except EnsureErr (HttpRequest × String)
  genCalls : Nat
deriving Repr

/-- `EnsureRequest(r)` from request.go, with the process-wide atomic
generator slot (`currentGenerator()`) passed explicitly as `slot`:
fail with "generator not initialized" when the slot is empty; otherwise
take the `X-Request-ID` header, calling `NextID` only when it is empty;
attach the id to the request context and return the derived request. -/
def EnsureRequest (slot : Option Generator) (r : HttpRequest) : EnsureOut :=
  match slot with
  | none => ⟨.error .notInitialized, 0⟩
  | some gen =>
    let id := r.xRequestID
    if id = "" then
      match gen.nextID with
      | .error e => ⟨.error (.genFailure e), 1⟩
      | .ok next => ⟨.ok ({ r with ctx := some next }, next), 1⟩
    else
      ⟨.ok ({ r with ctx := some id }, id), 0⟩

/-! ## Error kinds (sentinel errors of packages adapter / middleware)

`ErrNewChallenge`, `ErrBadRequest`, `ErrInternal`, `ErrAttestationRequired`
are distinct sentinel error values; boundaries compare against them (by
identity or `errors.Is`), and any other error value falls through to the
default branch, modelled by `other`. -/

inductive AdapterError where
  | newChallenge
  | badRequest
  | internal
  | attestationRequired
  | other (msg : String)
deriving DecidableEq, Repr

/-! ## Assertion adapter (package adapter / middleware, AssertionAdapter.Verify)

Collaborator calls are oracles: each plugin method's outcome for this one
call is a field.  `assertionAdapterVerify` returns the adapter's error
outcome together with the ordered trace of collaborator invocations, so
that short-circuit (non-invocation) properties are stated on the trace. -/

/-- One collaborator invocation inside the assertion flow. -/
inductive AssertCall where
  | parse
  | pkc
  | assigned
  | service
  | update
deriving DecidableEq, Repr

/-- Oracle for `plugin.AssertionPlugin`: outcome of each method for the
current call.  Opaque Go values (`*attest.AssertionObject`,
`*ecdsa.PublicKey`) are modelled as `Nat` tokens; a nil public key is
`none`. -/
structure AssertionPluginO where
  parseRequest : Except String (Nat × String)
  publicKeyAndCounter : Except String (Option Nat × Nat)
  assignedChallenge : Except String String
  updateCounter : Nat → Except String Unit

/-- The `AssertionService` interface:
`Verify(assertObject, challenge, clientData) (uint32, error)`. -/
structure AssertionServiceO where
  verify : Nat → String → List Nat → Except String Nat

/-- The `AssertionRequest` value object as far as the adapter reads it:
the raw body bytes. -/
structure AssertRequest where
  body : List Nat
deriving DecidableEq, Repr

/-- `AssertionAdapter.Verify` (identical in adapter/assertion_adapter.go and
the middleware-package copy): parse the request (fail → BadRequest), fetch
public key and counter (fail → Internal, nil key → AttestationRequired),
fetch the assigned challenge (fail → Internal, empty → NewChallenge), build
the service from (assignedChallenge, pubkey, counter) and verify (fail →
BadRequest), persist the new counter (fail → Internal), else succeed.
Returns (adapter error, collaborator-invocation trace). -/
def assertionAdapterVerify (plugin : AssertionPluginO)
    (newService : String → Nat → Nat → AssertionServiceO)
    (r : AssertRequest) : Option AdapterError × List AssertCall :=
  match plugin.parseRequest with
  | .error _ => (some .badRequest, [.parse])
  | .ok (assertion, challenge) =>
    match plugin.publicKeyAndCounter with
    | .error _ => (some .internal, [.parse, .pkc])
    | .ok (pubkey, counter) =>
      match pubkey with
      | none => (some .attestationRequired, [.parse, .pkc])
      | some key =>
        match plugin.assignedChallenge with
        | .error _ => (some .internal, [.parse, .pkc, .assigned])
        | .ok assignedChallenge =>
          if assignedChallenge = "" then
            (some .newChallenge, [.parse, .pkc, .assigned])
          else
            match (newService assignedChallenge key counter).verify
                assertion challenge r.body with
            | .error _ =>
              (some .badRequest, [.parse, .pkc, .assigned, .service])
            | .ok cnt =>
              match plugin.updateCounter cnt with
              | .error _ =>
                (some .internal,
                  [.parse, .pkc, .assigned, .service, .update])
              | .ok _ =>
                (none, [.parse, .pkc, .assigned, .service, .update])

/-! ## Attestation adapter (package adapter, attestationAdapter.Verify) -/

/-- One collaborator invocation inside the attestation flow.  `store`
records the contents of the request's result slot (`r.Result`) at the
moment `StoreResult` is invoked. -/
inductive AttestCall where
  | extract
  | isAssigned
  | serviceVerify
  | store (slot : Option Nat)
deriving DecidableEq, Repr

/-- Oracle for `plugin.AttestationPlugin`.  `storeResult` observes the
request's result slot (set by the adapter before the call).  Opaque Go
values (`*attest.AttestationObject`, `*attest.Result`) are `Nat` tokens. -/
structure AttestationPluginO where
  extractData : Except String (Nat × List Nat × List Nat)
  isChallengeAssigned : Except String Bool
  storeResult : Option Nat → Except String Unit

/-- The `AttestationService` interface:
`Verify(attestObj, clientDataHash, keyID) (*attest.Result, error)`. -/
structure AttestationServiceO where
  verify : Nat → List Nat → List Nat → Except String Nat

/-- `attestationAdapter.Verify`: extract attestation data (fail →
BadRequest), check challenge assignment (fail → Internal, unassigned →
NewChallenge), verify via the service (fail → BadRequest), set `r.Result`
and store it via the plugin (fail → Internal), else succeed.  Returns
(adapter error, collaborator-invocation trace). -/
def attestationAdapterVerify (plugin : AttestationPluginO)
    (service : AttestationServiceO) : Option AdapterError × List AttestCall :=
  match plugin.extractData with
  | .error _ => (some .badRequest, [.extract])
  | .ok (attestObj, clientDataHash, keyID) =>
    match plugin.isChallengeAssigned with
    | .error _ => (some .internal, [.extract, .isAssigned])
    | .ok assigned =>
      if !assigned then
        (some .newChallenge, [.extract, .isAssigned])
      else
        match service.verify attestObj clientDataHash keyID with
        | .error _ =>
          (some .badRequest, [.extract, .isAssigned, .serviceVerify])
        | .ok result =>
          match plugin.storeResult (some result) with
          | .error _ =>
            (some .internal,
              [.extract, .isAssigned, .serviceVerify, .store (some result)])
          | .ok _ =>
            (none,
              [.extract, .isAssigned, .serviceVerify, .store (some result)])

/-! ## Boundary handler (package handler, handler.go) -/

/-- An HTTP response effect: status code and body text written. -/
structure HResp where
  status : Nat
  body : String
deriving DecidableEq, Repr

/-- The default Failed hook installed by `NewAppAttestHandler` (same for
both endpoints): `errors.Is(err, ErrBadRequest)` → `http.Error` 400, else
`http.Error` 500.  `http.Error` writes the status text plus a newline. -/
def defaultFailedHook (e : AdapterError) : HResp :=
  match e with
  | .badRequest => ⟨400, "Bad Request\n"⟩
  | _ => ⟨500, "Internal Server Error\n"⟩

/-- The default Verify Success hook: `w.WriteHeader(http.StatusOK)`. -/
def defaultVerifySuccessHook : HResp := ⟨200, ""⟩

/-- The default NewChallenge Success hook: status 200 with the raw
challenge string written as the response body. -/
def defaultNewChallengeSuccessHook (challenge : String) : HResp :=
  ⟨200, challenge⟩

/-- `VerifyHooks` (Setup cannot write to the response and is omitted). -/
structure VerifyHooksO where
  success : HResp
  failed : AdapterError → HResp

/-- `NewChallengeHooks` (Setup omitted as above). -/
structure NewChallengeHooksO where
  success : String → HResp
  failed : AdapterError → HResp

/-- Oracle for the `AttestationAdapter` the handler holds: the outcome of
`Verify` and of `NewChallenge` for the current request. -/
structure AttestationAdapterO where
  verifyResult : Option AdapterError
  newChallengeResult : Except AdapterError String

/-- `AppAttestHandler.NewChallenge`: ensure a request id (fail → 500), then
ask the adapter for a challenge and run the Failed or Success hook. -/
def appAttestHandlerNewChallenge (slot : Option Generator)
    (adapter : AttestationAdapterO) (hooks : NewChallengeHooksO)
    (r : HttpRequest) : HResp :=
  match (EnsureRequest slot r).result with
  | .error _ => ⟨500, "Internal Server Error\n"⟩
  | .ok (_, _) =>
    match adapter.newChallengeResult with
    | .error e => hooks.failed e
    | .ok challenge => hooks.success challenge

/-- Outcome of `AppAttestHandler.Verify`, with flags recording whether the
Failed hook ran and whether the challenge-issuance endpoint was
re-entered. -/
structure VerifyOut where
  resp : HResp
  failedHookCalled : Bool
  newChallengeEntered : Bool
deriving DecidableEq, Repr

/-- `AppAttestHandler.Verify`: ensure a request id (fail → 500), invoke the
adapter's Verify; on `errors.Is(err, ErrNewChallenge)` re-enter
`NewChallenge` on the derived request instead of running the Failed hook;
on any other error run the Failed hook; on success run the Success hook. -/
def appAttestHandlerVerify (slot : Option Generator)
    (adapter : AttestationAdapterO) (vhooks : VerifyHooksO)
    (nchooks : NewChallengeHooksO) (r : HttpRequest) : VerifyOut :=
  match (EnsureRequest slot r).result with
  | .error _ => ⟨⟨500, "Internal Server Error\n"⟩, false, false⟩
  | .ok (rr, _) =>
    match adapter.verifyResult with
    | some e =>
      if e = .newChallenge then
        ⟨appAttestHandlerNewChallenge slot adapter nchooks rr, false, true⟩
      else
        ⟨vhooks.failed e, true, false⟩
    | none => ⟨vhooks.success, false, false⟩

/-! ## Boundary middleware (package middleware, middleware.go) -/

/-- A logger value held by the middleware: the one supplied at construction
or the `io.Discard`-backed replacement. -/
inductive LoggerV where
  | supplied
  | discard
deriving DecidableEq, Repr

/-- `middleware.Config`. -/
structure MwConfig where
  bodyLimit : Int
  attestationURL : String
  newChallengeURL : String
deriving DecidableEq, Repr

/-- `middleware.AssertionMiddleware` state after construction.  `logger` is
`none` exactly when the Go field would be a nil pointer. -/
structure AssertionMiddleware where
  logger : Option LoggerV
  config : MwConfig
deriving DecidableEq, Repr

/-- `NewAssertionMiddleware`: store logger and config; if
`config.BodyLimit == 0` set it to `10 << 20` (10485760); if the supplied
logger is nil install a discard logger. -/
def NewAssertionMiddleware (logger : Option LoggerV) (config : MwConfig) :
    AssertionMiddleware :=
  let m : AssertionMiddleware := { logger := logger, config := config }
  let m := if m.config.bodyLimit = 0 then
      { m with config := { m.config with bodyLimit := 10485760 } }
    else m
  if logger = none then { m with logger := some .discard } else m

/-- `io.ReadAll(io.LimitReader(body, k))`: delivers at most `k` bytes; an
error in the underlying stream surfaces only if it is reached within those
`k` bytes (the stream errs after delivering all its bytes). -/
def readAllLimited (s : BodyStream) (k : Int) : Except String (List Nat) :=
  if k.toNat ≤ s.bytes.length then .ok (s.bytes.take k.toNat)
  else if s.readErr then .error "read error" else .ok s.bytes

/-- The body-reading block of `AssertionMiddleware.Handler`: with a nil
body nothing is read (the nil slice passes through); otherwise read up to
`BodyLimit + 1` bytes — a read error or `len(body) > BodyLimit` both abort
with 400, modelled as `none`. -/
def middlewareReadBody (m : AssertionMiddleware) (r : HttpRequest) :
    Option (List Nat) :=
  match r.body with
  | none => some []
  | some s =>
    match readAllLimited s (m.config.bodyLimit + 1) with
    | .error _ => none
    | .ok body =>
      if (body.length : Int) > m.config.bodyLimit then none else some body

/-- The middleware's transport effect. -/
inductive MwResp where
  | seeOther (url : String)
  | status (code : Nat)
  | next
deriving DecidableEq, Repr

/-- Middleware outcome plus whether the adapter's Verify was invoked. -/
structure MwOut where
  resp : MwResp
  adapterCalled : Bool
deriving DecidableEq, Repr

/-- The error-switch of `AssertionMiddleware.Handler` after the adapter has
been invoked: `ErrAttestationRequired` → 303 to `AttestationURL`;
`ErrNewChallenge` → 303 to `NewChallengeURL`, falling back to the `Referer`
header, falling back to `"/"`; `ErrBadRequest` → 400; `ErrInternal` and any
other error → 500; no error → the wrapped handler. -/
def assertionMiddlewareDispatch (m : AssertionMiddleware)
    (adapterResult : Option AdapterError) (r : HttpRequest) : MwOut :=
  match adapterResult with
  | none => ⟨.next, true⟩
  | some .attestationRequired => ⟨.seeOther m.config.attestationURL, true⟩
  | some .newChallenge =>
    let redirect :=
      if m.config.newChallengeURL = "" then
        if r.referer = "" then "/" else r.referer
      else m.config.newChallengeURL
    ⟨.seeOther redirect, true⟩
  | some .badRequest => ⟨.status 400, true⟩
  | some .internal => ⟨.status 500, true⟩
  | some (.other _) => ⟨.status 500, true⟩

/-- `AssertionMiddleware.Handler`: ensure a request id (fail → 500 without
touching the body or the adapter); read and bound the body (failure → 400
without invoking the adapter); then invoke the adapter and dispatch on its
outcome. -/
def assertionMiddlewareHandler (m : AssertionMiddleware)
    (slot : Option Generator) (adapterResult : Option AdapterError)
    (r : HttpRequest) : MwOut :=
  match (EnsureRequest slot r).result with
  | .error _ => ⟨.status 500, false⟩
  | .ok (rr, _) =>
    match middlewareReadBody m rr with
    | none => ⟨.status 400, false⟩
    | some _ => assertionMiddlewareDispatch m adapterResult rr

/-! ## Theorems for claims C7, C8, C9 -/

/-- Claim C7, counterexample: with the generator slot empty and the header
`X-Request-ID: abc` present, `EnsureRequest` does not return `"abc"`; it
fails with the not-initialized error, because the slot is checked before the
header is consulted.  So "returns that exact header value ... regardless of
whether a generator has been set" is false. -/
theorem C7_counterexample :
    (EnsureRequest none ⟨"abc", "", none, none⟩).result = .error .notInitialized := by
  rfl

/-- Claim C7 (amended): for every request carrying a non-empty
`X-Request-ID` header, `EnsureRequest` never invokes the generator, and
whenever a generator has been set it returns that exact header value
unmodified as the id. -/
theorem C7_header_passthrough (slot : Option Generator) (r : HttpRequest)
    (h : r.xRequestID ≠ "") :
    (EnsureRequest slot r).genCalls = 0 ∧
    (∀ gen, slot = some gen →
      (EnsureRequest slot r).result =
        .ok ({ r with ctx := some r.xRequestID }, r.xRequestID)) := by
  cases slot with
  | none => exact ⟨rfl, by intro gen hg; cases hg⟩
  | some gen =>
    refine ⟨?_, ?_⟩
    · simp [EnsureRequest, h]
    · intro gen' hg
      simp [EnsureRequest, h]

/-- Witness for C7_header_passthrough at a concrete input. -/
theorem C7_header_passthrough_witness :
    (EnsureRequest (some ⟨.ok "gen-id"⟩) ⟨"abc", "", none, none⟩).genCalls = 0 ∧
    (EnsureRequest (some ⟨.ok "gen-id"⟩) ⟨"abc", "", none, none⟩).result =
      .ok (⟨"abc", "", some "abc", none⟩, "abc") := by
  have h := C7_header_passthrough (some ⟨.ok "gen-id"⟩) ⟨"abc", "", none, none⟩
    (by decide)
  exact ⟨h.1, h.2 _ rfl⟩

/-- Claim C8: `EnsureRequest` fails with the "generator not initialized"
condition if and only if the generator slot is empty, for every input
request, including requests that carry a correlation header. -/
theorem C8_not_initialized_iff (slot : Option Generator) (r : HttpRequest) :
    (EnsureRequest slot r).result = .error .notInitialized ↔ slot = none := by
  cases slot with
  | none => simp [EnsureRequest]
  | some gen =>
    simp only [EnsureRequest]
    constructor
    · intro h
      by_cases hid : r.xRequestID = ""
      · simp only [hid, if_pos rfl] at h
        cases hg : gen.nextID with
        | error e => rw [hg] at h; cases h
        | ok next => rw [hg] at h; cases h
      · simp only [if_neg hid] at h
        cases h
    · intro h; cases h

/-- Witness for C8_not_initialized_iff: the empty slot direction at a
concrete request carrying a header. -/
theorem C8_not_initialized_iff_witness :
    (EnsureRequest none ⟨"abc", "", none, none⟩).result = .error .notInitialized :=
  (C8_not_initialized_iff none ⟨"abc", "", none, none⟩).mpr rfl

/-- Claim C9: for a request without the correlation header, with a generator
set whose `NextID` succeeds with `id`, `EnsureRequest` invokes the generator
exactly once and attaches `id` to the returned request's context, so that
`FromContext` on that context returns the same `id`. -/
theorem C9_generated_id_roundtrip (gen : Generator) (r : HttpRequest)
    (id : String) (hhdr : r.xRequestID = "") (hgen : gen.nextID = .ok id) :
    (EnsureRequest (some gen) r).genCalls = 1 ∧
    (EnsureRequest (some gen) r).result = .ok ({ r with ctx := some id }, id) ∧
    FromContext ({ r with ctx := some id }).ctx = id := by
  refine ⟨?_, ?_, rfl⟩ <;> simp [EnsureRequest, hhdr, hgen]

/-- Witness for C9_generated_id_roundtrip at a concrete input. -/
theorem C9_generated_id_roundtrip_witness :
    (EnsureRequest (some ⟨.ok "gen-1"⟩) ⟨"", "", none, none⟩).genCalls = 1 ∧
    (EnsureRequest (some ⟨.ok "gen-1"⟩) ⟨"", "", none, none⟩).result =
      .ok (⟨"", "", some "gen-1", none⟩, "gen-1") ∧
    FromContext (some "gen-1") = "gen-1" :=
  C9_generated_id_roundtrip ⟨.ok "gen-1"⟩ ⟨"", "", none, none⟩ "gen-1" rfl rfl

/-! ## Theorems for claims C1, C2 (assertion flow short-circuits) -/

/-- Claim C1: whenever `ParseRequest` succeeds and `PublicKeyAndCounter`
succeeds with an absent (nil) public key, the assertion adapter's Verify
returns `AttestationRequired`, and `AssignedChallenge`, the verification
service's `Verify`, and `UpdateCounter` are not invoked — regardless of how
those collaborators would behave (they are universally quantified). -/
theorem C1_absent_key_short_circuit (plugin : AssertionPluginO)
    (newService : String → Nat → Nat → AssertionServiceO) (r : AssertRequest)
    (d : Nat × String) (counter : Nat)
    (hp : plugin.parseRequest = .ok d)
    (hk : plugin.publicKeyAndCounter = .ok (none, counter)) :
    (assertionAdapterVerify plugin newService r).fst =
      some .attestationRequired ∧
    (assertionAdapterVerify plugin newService r).snd = [.parse, .pkc] ∧
    AssertCall.assigned ∉ (assertionAdapterVerify plugin newService r).snd ∧
    AssertCall.service ∉ (assertionAdapterVerify plugin newService r).snd ∧
    AssertCall.update ∉ (assertionAdapterVerify plugin newService r).snd := by
  obtain ⟨assertion, challenge⟩ := d
  refine ⟨?_, ?_, ?_, ?_, ?_⟩ <;> simp [assertionAdapterVerify, hp, hk]

/-- Witness for C1_absent_key_short_circuit at a concrete input. -/
theorem C1_absent_key_short_circuit_witness :
    (assertionAdapterVerify ⟨.ok (0, "c"), .ok (none, 5), .ok "x",
        fun _ => .ok ()⟩ (fun _ _ _ => ⟨fun _ _ _ => .ok 9⟩) ⟨[]⟩).fst =
      some .attestationRequired ∧
    (assertionAdapterVerify ⟨.ok (0, "c"), .ok (none, 5), .ok "x",
        fun _ => .ok ()⟩ (fun _ _ _ => ⟨fun _ _ _ => .ok 9⟩) ⟨[]⟩).snd =
      [.parse, .pkc] ∧
    AssertCall.assigned ∉ (assertionAdapterVerify ⟨.ok (0, "c"),
        .ok (none, 5), .ok "x", fun _ => .ok ()⟩
        (fun _ _ _ => ⟨fun _ _ _ => .ok 9⟩) ⟨[]⟩).snd ∧
    AssertCall.service ∉ (assertionAdapterVerify ⟨.ok (0, "c"),
        .ok (none, 5), .ok "x", fun _ => .ok ()⟩
        (fun _ _ _ => ⟨fun _ _ _ => .ok 9⟩) ⟨[]⟩).snd ∧
    AssertCall.update ∉ (assertionAdapterVerify ⟨.ok (0, "c"),
        .ok (none, 5), .ok "x", fun _ => .ok ()⟩
        (fun _ _ _ => ⟨fun _ _ _ => .ok 9⟩) ⟨[]⟩).snd :=
  C1_absent_key_short_circuit ⟨.ok (0, "c"), .ok (none, 5), .ok "x",
    fun _ => .ok ()⟩ (fun _ _ _ => ⟨fun _ _ _ => .ok 9⟩) ⟨[]⟩
    (0, "c") 5 rfl rfl

/-- Claim C2: whenever the flow reaches the challenge check — `ParseRequest`
succeeded and `PublicKeyAndCounter` returned a present (non-nil) key — and
`AssignedChallenge` succeeds with the empty string, the assertion adapter's
Verify returns `NewChallenge` and the verification service's `Verify` is
never invoked. -/
theorem C2_empty_challenge_short_circuit (plugin : AssertionPluginO)
    (newService : String → Nat → Nat → AssertionServiceO) (r : AssertRequest)
    (d : Nat × String) (key counter : Nat)
    (hp : plugin.parseRequest = .ok d)
    (hk : plugin.publicKeyAndCounter = .ok (some key, counter))
    (ha : plugin.assignedChallenge = .ok "") :
    (assertionAdapterVerify plugin newService r).fst = some .newChallenge ∧
    (assertionAdapterVerify plugin newService r).snd =
      [.parse, .pkc, .assigned] ∧
    AssertCall.service ∉ (assertionAdapterVerify plugin newService r).snd := by
  obtain ⟨assertion, challenge⟩ := d
  refine ⟨?_, ?_, ?_⟩ <;> simp [assertionAdapterVerify, hp, hk, ha]

/-- Witness for C2_empty_challenge_short_circuit at a concrete input. -/
theorem C2_empty_challenge_short_circuit_witness :
    (assertionAdapterVerify ⟨.ok (0, "c"), .ok (some 3, 5), .ok "",
        fun _ => .ok ()⟩ (fun _ _ _ => ⟨fun _ _ _ => .ok 9⟩) ⟨[]⟩).fst =
      some .newChallenge ∧
    (assertionAdapterVerify ⟨.ok (0, "c"), .ok (some 3, 5), .ok "",
        fun _ => .ok ()⟩ (fun _ _ _ => ⟨fun _ _ _ => .ok 9⟩) ⟨[]⟩).snd =
      [.parse, .pkc, .assigned] ∧
    AssertCall.service ∉ (assertionAdapterVerify ⟨.ok (0, "c"),
        .ok (some 3, 5), .ok "", fun _ => .ok ()⟩
        (fun _ _ _ => ⟨fun _ _ _ => .ok 9⟩) ⟨[]⟩).snd :=
  C2_empty_challenge_short_circuit ⟨.ok (0, "c"), .ok (some 3, 5), .ok "",
    fun _ => .ok ()⟩ (fun _ _ _ => ⟨fun _ _ _ => .ok 9⟩) ⟨[]⟩
    (0, "c") 3 5 rfl rfl rfl

/-! ## Theorem for claim C3 (attestation flow error mapping) -/

/-- Claim C3: the attestation adapter's Verify maps step failures exactly as
specified — ExtractData failure → BadRequest; IsChallengeAssigned failure →
Internal; IsChallengeAssigned false → NewChallenge; service Verify failure →
BadRequest; StoreResult failure → Internal; and on full success no error is
returned and `StoreResult` observed the service's result already attached to
the request's result slot. -/
theorem C3_attestation_error_mapping (plugin : AttestationPluginO)
    (service : AttestationServiceO) :
    (∀ e, plugin.extractData = .error e →
      (attestationAdapterVerify plugin service).fst = some .badRequest) ∧
    (∀ d e, plugin.extractData = .ok d →
      plugin.isChallengeAssigned = .error e →
      (attestationAdapterVerify plugin service).fst = some .internal) ∧
    (∀ d, plugin.extractData = .ok d →
      plugin.isChallengeAssigned = .ok false →
      (attestationAdapterVerify plugin service).fst = some .newChallenge) ∧
    (∀ obj hash keyID e, plugin.extractData = .ok (obj, hash, keyID) →
      plugin.isChallengeAssigned = .ok true →
      service.verify obj hash keyID = .error e →
      (attestationAdapterVerify plugin service).fst = some .badRequest) ∧
    (∀ obj hash keyID res e, plugin.extractData = .ok (obj, hash, keyID) →
      plugin.isChallengeAssigned = .ok true →
      service.verify obj hash keyID = .ok res →
      plugin.storeResult (some res) = .error e →
      (attestationAdapterVerify plugin service).fst = some .internal) ∧
    (∀ obj hash keyID res, plugin.extractData = .ok (obj, hash, keyID) →
      plugin.isChallengeAssigned = .ok true →
      service.verify obj hash keyID = .ok res →
      plugin.storeResult (some res) = .ok () →
      (attestationAdapterVerify plugin service).fst = none ∧
      AttestCall.store (some res) ∈
        (attestationAdapterVerify plugin service).snd) := by
  refine ⟨?_, ?_, ?_, ?_, ?_, ?_⟩
  · intro e he
    simp [attestationAdapterVerify, he]
  · intro d e hd he
    obtain ⟨obj, hash, keyID⟩ := d
    simp [attestationAdapterVerify, hd, he]
  · intro d hd ha
    obtain ⟨obj, hash, keyID⟩ := d
    simp [attestationAdapterVerify, hd, ha]
  · intro obj hash keyID e hd ha hv
    simp [attestationAdapterVerify, hd, ha, hv]
  · intro obj hash keyID res e hd ha hv hs
    simp [attestationAdapterVerify, hd, ha, hv, hs]
  · intro obj hash keyID res hd ha hv hs
    refine ⟨?_, ?_⟩ <;> simp [attestationAdapterVerify, hd, ha, hv, hs]

/-- Witness for C3_attestation_error_mapping: the all-success conjunct at a
concrete input, showing success with the result attached before storing. -/
theorem C3_attestation_error_mapping_witness :
    (attestationAdapterVerify ⟨.ok (1, [2], [3]), .ok true, fun _ => .ok ()⟩
      ⟨fun _ _ _ => .ok 7⟩).fst = none ∧
    AttestCall.store (some 7) ∈
      (attestationAdapterVerify ⟨.ok (1, [2], [3]), .ok true,
        fun _ => .ok ()⟩ ⟨fun _ _ _ => .ok 7⟩).snd :=
  (C3_attestation_error_mapping ⟨.ok (1, [2], [3]), .ok true, fun _ => .ok ()⟩
    ⟨fun _ _ _ => .ok 7⟩).2.2.2.2.2 1 [2] [3] 7 rfl rfl rfl rfl

/-! ## Theorems for claims C4, C5, C6, C10 (boundaries) -/

/-- Helper: every branch of the middleware's post-adapter dispatch has the
adapter invoked. -/
theorem assertionMiddlewareDispatch_called (m : AssertionMiddleware)
    (o : Option AdapterError) (r : HttpRequest) :
    (assertionMiddlewareDispatch m o r).adapterCalled = true := by
  cases o with
  | none => rfl
  | some e => cases e <;> rfl

/-- Claim C4: when the request id is ensured and the adapter's Verify
outcome is `ErrNewChallenge`, the Verify endpoint re-enters the
challenge-issuance endpoint on the derived request and does not run the
Failed hook; the default Failed hook maps `ErrBadRequest` to 400 and every
other error to 500; and the default challenge-issuance Success hook writes
the raw challenge string as the response body with status 200. -/
theorem C4_handler_newchallenge_reentry (slot : Option Generator)
    (adapter : AttestationAdapterO) (vhooks : VerifyHooksO)
    (nchooks : NewChallengeHooksO) (r rr : HttpRequest) (id : String)
    (e : AdapterError) (c : String)
    (hens : (EnsureRequest slot r).result = .ok (rr, id)) :
    (adapter.verifyResult = some .newChallenge →
      appAttestHandlerVerify slot adapter vhooks nchooks r =
        ⟨appAttestHandlerNewChallenge slot adapter nchooks rr, false, true⟩) ∧
    defaultFailedHook .badRequest = ⟨400, "Bad Request\n"⟩ ∧
    (e ≠ .badRequest → (defaultFailedHook e).status = 500) ∧
    defaultNewChallengeSuccessHook c = ⟨200, c⟩ := by
  refine ⟨?_, rfl, ?_, rfl⟩
  · intro hv
    simp [appAttestHandlerVerify, hens, hv]
  · intro hne
    cases e <;> first | exact absurd rfl hne | rfl

/-- Witness for C4_handler_newchallenge_reentry at a concrete input. -/
theorem C4_handler_newchallenge_reentry_witness :
    appAttestHandlerVerify (some ⟨.ok "g"⟩) ⟨some .newChallenge, .ok "ch-1"⟩
        ⟨defaultVerifySuccessHook, defaultFailedHook⟩
        ⟨defaultNewChallengeSuccessHook, defaultFailedHook⟩
        ⟨"abc", "", none, none⟩ =
      ⟨appAttestHandlerNewChallenge (some ⟨.ok "g"⟩)
          ⟨some .newChallenge, .ok "ch-1"⟩
          ⟨defaultNewChallengeSuccessHook, defaultFailedHook⟩
          ⟨"abc", "", some "abc", none⟩, false, true⟩ ∧
    (defaultFailedHook .internal).status = 500 ∧
    defaultNewChallengeSuccessHook "ch-1" = ⟨200, "ch-1"⟩ := by
  have h := C4_handler_newchallenge_reentry (some ⟨.ok "g"⟩)
    ⟨some .newChallenge, .ok "ch-1"⟩
    ⟨defaultVerifySuccessHook, defaultFailedHook⟩
    ⟨defaultNewChallengeSuccessHook, defaultFailedHook⟩
    ⟨"abc", "", none, none⟩ ⟨"abc", "", some "abc", none⟩ "abc"
    .internal "ch-1" rfl
  exact ⟨h.1 rfl, h.2.2.1 (by decide), h.2.2.2⟩

/-- Claim C5: once the request id is ensured and the body passes the size
check, the middleware maps the adapter outcome exactly:
`ErrAttestationRequired` → 303 to the configured attestation URL;
`ErrNewChallenge` → 303 to the configured challenge URL, else the `Referer`
header, else `"/"`; `ErrBadRequest` → 400; `ErrInternal` or any
unrecognized error → 500; no error → the wrapped handler runs. -/
theorem C5_middleware_outcome_mapping (m : AssertionMiddleware)
    (slot : Option Generator) (r rr : HttpRequest) (id : String)
    (bs : List Nat) (msg : String)
    (hens : (EnsureRequest slot r).result = .ok (rr, id))
    (hbody : middlewareReadBody m rr = some bs) :
    assertionMiddlewareHandler m slot (some .attestationRequired) r =
      ⟨.seeOther m.config.attestationURL, true⟩ ∧
    assertionMiddlewareHandler m slot (some .newChallenge) r =
      ⟨.seeOther (if m.config.newChallengeURL = "" then
          if rr.referer = "" then "/" else rr.referer
        else m.config.newChallengeURL), true⟩ ∧
    assertionMiddlewareHandler m slot (some .badRequest) r =
      ⟨.status 400, true⟩ ∧
    assertionMiddlewareHandler m slot (some .internal) r =
      ⟨.status 500, true⟩ ∧
    assertionMiddlewareHandler m slot (some (.other msg)) r =
      ⟨.status 500, true⟩ ∧
    assertionMiddlewareHandler m slot none r = ⟨.next, true⟩ := by
  refine ⟨?_, ?_, ?_, ?_, ?_, ?_⟩ <;>
    simp [assertionMiddlewareHandler, hens, hbody,
      assertionMiddlewareDispatch]

/-- Witness for C5_middleware_outcome_mapping: with an empty configured
challenge URL and `Referer: /came-from`, `ErrNewChallenge` redirects to
`/came-from`; with no error the wrapped handler runs. -/
theorem C5_middleware_outcome_mapping_witness :
    assertionMiddlewareHandler ⟨some .supplied, ⟨100, "https://att", ""⟩⟩
        (some ⟨.ok "g"⟩) (some .newChallenge)
        ⟨"id1", "/came-from", none, none⟩ =
      ⟨.seeOther "/came-from", true⟩ ∧
    assertionMiddlewareHandler ⟨some .supplied, ⟨100, "https://att", ""⟩⟩
        (some ⟨.ok "g"⟩) none ⟨"id1", "/came-from", none, none⟩ =
      ⟨.next, true⟩ := by
  have h := C5_middleware_outcome_mapping
    ⟨some .supplied, ⟨100, "https://att", ""⟩⟩ (some ⟨.ok "g"⟩)
    ⟨"id1", "/came-from", none, none⟩
    ⟨"id1", "/came-from", some "id1", none⟩ "id1" [] "x" rfl rfl
  exact ⟨by simpa using h.2.1, h.2.2.2.2.2⟩

/-- Claim C6: with a non-nil body, a body of exactly `BodyLimit` bytes is
accepted (the adapter runs), `BodyLimit + 1` or more bytes yields 400
without invoking the adapter, a body read error yields 400 without invoking
the adapter, and any successful bounded read delivers at most
`BodyLimit + 1` bytes. -/
theorem C6_body_limit_boundary (m : AssertionMiddleware)
    (slot : Option Generator) (adapterResult : Option AdapterError)
    (r rr : HttpRequest) (id : String) (s : BodyStream) (k : Int)
    (bs : List Nat)
    (hens : (EnsureRequest slot r).result = .ok (rr, id))
    (hbody : rr.body = some s)
    (hL : 0 ≤ m.config.bodyLimit) :
    (s.readErr = false → (s.bytes.length : Int) = m.config.bodyLimit →
      assertionMiddlewareHandler m slot adapterResult r =
        assertionMiddlewareDispatch m adapterResult rr ∧
      (assertionMiddlewareHandler m slot adapterResult r).adapterCalled =
        true) ∧
    (m.config.bodyLimit + 1 ≤ (s.bytes.length : Int) →
      assertionMiddlewareHandler m slot adapterResult r =
        ⟨.status 400, false⟩) ∧
    (s.readErr = true →
      assertionMiddlewareHandler m slot adapterResult r =
        ⟨.status 400, false⟩) ∧
    (readAllLimited s k = .ok bs → bs.length ≤ k.toNat) := by
  have hk : (m.config.bodyLimit + 1).toNat = m.config.bodyLimit.toNat + 1 :=
    by omega
  refine ⟨?_, ?_, ?_, ?_⟩
  · intro hre hlen
    have hlen' : s.bytes.length = m.config.bodyLimit.toNat := by omega
    have hread : readAllLimited s (m.config.bodyLimit + 1) = .ok s.bytes := by
      unfold readAllLimited
      rw [hk, hlen', if_neg (by omega), hre]
      simp
    have hgt : ¬ ((s.bytes.length : Int) > m.config.bodyLimit) := by omega
    have hmb : middlewareReadBody m rr = some s.bytes := by
      simp [middlewareReadBody, hbody, hread, hgt]
    constructor
    · simp [assertionMiddlewareHandler, hens, hmb]
    · simp [assertionMiddlewareHandler, hens, hmb,
        assertionMiddlewareDispatch_called]
  · intro h2
    have hlen2 : m.config.bodyLimit.toNat + 1 ≤ s.bytes.length := by omega
    have hread : readAllLimited s (m.config.bodyLimit + 1) =
        .ok (s.bytes.take (m.config.bodyLimit.toNat + 1)) := by
      unfold readAllLimited
      rw [hk, if_pos hlen2]
    have hlen3 : (s.bytes.take (m.config.bodyLimit.toNat + 1)).length =
        m.config.bodyLimit.toNat + 1 := by
      simp [List.length_take]
      omega
    have hgt : ((s.bytes.take (m.config.bodyLimit.toNat + 1)).length : Int) >
        m.config.bodyLimit := by
      rw [hlen3]
      omega
    have hmb : middlewareReadBody m rr = none := by
      simp only [middlewareReadBody, hbody, hread]
      rw [if_pos hgt]
    simp [assertionMiddlewareHandler, hens, hmb]
  · intro hre
    by_cases hc : m.config.bodyLimit.toNat + 1 ≤ s.bytes.length
    · have hread : readAllLimited s (m.config.bodyLimit + 1) =
          .ok (s.bytes.take (m.config.bodyLimit.toNat + 1)) := by
        unfold readAllLimited
        rw [hk, if_pos hc]
      have hlen3 : (s.bytes.take (m.config.bodyLimit.toNat + 1)).length =
          m.config.bodyLimit.toNat + 1 := by
        simp [List.length_take]
        omega
      have hgt : ((s.bytes.take
          (m.config.bodyLimit.toNat + 1)).length : Int) >
          m.config.bodyLimit := by
        rw [hlen3]
        omega
      have hmb : middlewareReadBody m rr = none := by
        simp only [middlewareReadBody, hbody, hread]
        rw [if_pos hgt]
      simp [assertionMiddlewareHandler, hens, hmb]
    · have hread : readAllLimited s (m.config.bodyLimit + 1) =
          .error "read error" := by
        unfold readAllLimited
        rw [hk, if_neg hc, hre]
        simp
      have hmb : middlewareReadBody m rr = none := by
        simp [middlewareReadBody, hbody, hread]
      simp [assertionMiddlewareHandler, hens, hmb]
  · intro hok
    unfold readAllLimited at hok
    by_cases hc : k.toNat ≤ s.bytes.length
    · rw [if_pos hc] at hok
      injection hok with h
      subst h
      simp [List.length_take]
    · rw [if_neg hc] at hok
      by_cases hre2 : s.readErr
      · rw [if_pos hre2] at hok
        cases hok
      · rw [if_neg hre2] at hok
        injection hok with h
        subst h
        omega

/-- Witness for C6_body_limit_boundary: limit 4, body of exactly 4 bytes is
accepted and the adapter runs. -/
theorem C6_body_limit_boundary_witness :
    assertionMiddlewareHandler ⟨some .supplied, ⟨4, "a", "c"⟩⟩
        (some ⟨.ok "g"⟩) none
        ⟨"id1", "", none, some ⟨[1, 2, 3, 4], false⟩⟩ =
      assertionMiddlewareDispatch ⟨some .supplied, ⟨4, "a", "c"⟩⟩ none
        ⟨"id1", "", some "id1", some ⟨[1, 2, 3, 4], false⟩⟩ ∧
    (assertionMiddlewareHandler ⟨some .supplied, ⟨4, "a", "c"⟩⟩
        (some ⟨.ok "g"⟩) none
        ⟨"id1", "", none, some ⟨[1, 2, 3, 4], false⟩⟩).adapterCalled =
      true :=
  (C6_body_limit_boundary ⟨some .supplied, ⟨4, "a", "c"⟩⟩ (some ⟨.ok "g"⟩)
    none ⟨"id1", "", none, some ⟨[1, 2, 3, 4], false⟩⟩
    ⟨"id1", "", some "id1", some ⟨[1, 2, 3, 4], false⟩⟩ "id1"
    ⟨[1, 2, 3, 4], false⟩ 0 [] rfl rfl (by decide)).1 rfl (by decide)

/-- Claim C10: the constructor normalizes its configuration — a zero
`BodyLimit` becomes exactly 10485760 bytes, and a nil logger is replaced by
a non-nil discard logger. -/
theorem C10_constructor_normalization (logger : Option LoggerV)
    (config cfg : MwConfig) (h0 : config.bodyLimit = 0) :
    (NewAssertionMiddleware logger config).config.bodyLimit = 10485760 ∧
    (NewAssertionMiddleware none cfg).logger = some .discard := by
  constructor
  · simp only [NewAssertionMiddleware, h0, if_pos rfl]
    split <;> rfl
  · simp only [NewAssertionMiddleware, if_pos rfl]
    split
    · rfl
    · next h => exact absurd trivial h

/-- Witness for C10_constructor_normalization at concrete configs. -/
theorem C10_constructor_normalization_witness :
    (NewAssertionMiddleware (some .supplied)
      ⟨0, "a", "b"⟩).config.bodyLimit = 10485760 ∧
    (NewAssertionMiddleware none ⟨7, "x", "y"⟩).logger = some .discard :=
  C10_constructor_normalization (some .supplied) ⟨0, "a", "b"⟩
    ⟨7, "x", "y"⟩ rfl
